import Mathlib

/-!
Shallow embedding of the session/authentication core of the nest-blog-mongoDB
repository: the auth service (login, refresh-token rotation, logout,
logout-all, expired-token sweep), the JWT strategies (access and refresh
guards), and the per-user refresh-credential store kept in the users
collection. Times are milliseconds since the epoch, modelled as natural
numbers. Signed tokens are modelled as records of the signed content
(payload, issued-at, expiry, token class standing for the class secret);
equality of these records mirrors equality of the signed token strings.
-/

/-- User roles, from the user schema (UserRole). -/
inductive UserRole where
  | admin
  | user
  deriving DecidableEq

/-- The two token classes; each class has its own signing secret
(JWT_ACCESS_SECRET and JWT_REFRESH_SECRET), so the class stands for the
secret the token was signed with. -/
inductive TokenClass where
  | access
  | refresh
  deriving DecidableEq

/-- The JWT payload built in auth.service.ts: sub, email, role. -/
structure JwtPayload where
  sub : Nat
  email : String
  role : UserRole
  deriving DecidableEq

/-- A signed token: the signed claim set plus issued-at and expiry and the
class whose secret signed it. Two tokens are equal exactly when the signed
strings are equal (the signature is deterministic in the payload, the
timestamps and the secret). -/
structure SignedToken where
  payload : JwtPayload
  iat : Nat
  exp : Nat
  cls : TokenClass
  deriving DecidableEq

/-- Modelled from the spec: the token codec signs the claims with the class
secret and an expiry of now plus the configured TTL (the jsonwebtoken
library is not part of src). -/
def sign (p : JwtPayload) (cls : TokenClass) (now ttlMs : Nat) : SignedToken :=
  { payload := p, iat := now, exp := now + ttlMs, cls := cls }

/-- Token-codec verification failures. -/
inductive VerifyError where
  | invalidSignature
  | expired
  deriving DecidableEq

/-- Modelled from the spec: codec verification checks the signature (the
token must have been signed with the class secret it is checked against)
and fails with Expired if now is past the embedded expiry; it never touches
the store. -/
def verifyToken (t : SignedToken) (cls : TokenClass) (now : Nat) :
    Except VerifyError JwtPayload :=
  if t.cls ≠ cls then Except.error VerifyError.invalidSignature
  else if t.exp < now then Except.error VerifyError.expired
  else Except.ok t.payload

/-- One embedded refresh-credential record (user schema: refreshTokens
array elements with token, createdAt, expiresAt, deviceInfo). -/
structure RefreshCredential where
  token : SignedToken
  createdAt : Nat
  expiresAt : Nat
  deviceInfo : String
  deriving DecidableEq

/-- One user document of the users collection (password omitted from the
claims under study is kept for fidelity of the sanitising projections). -/
structure UserDoc where
  id : Nat
  email : String
  name : String
  role : UserRole
  bio : String
  password : String
  lastLogin : Option Nat
  refreshTokens : List RefreshCredential
  deriving DecidableEq

/-- The users collection. -/
abbrev Store := List UserDoc

/-- findByIdAndUpdate with an update document: applies the update to the
documents whose id matches. -/
def findByIdAndUpdate (s : Store) (uid : Nat) (f : UserDoc → UserDoc) : Store :=
  s.map (fun u => if u.id = uid then f u else u)

/-- findById / findOne on id: the first document with the given id. -/
def findUser (s : Store) (uid : Nat) : Option UserDoc :=
  s.find? (fun u => decide (u.id = uid))

/-- The pull update used by rotation and logout:
pull refreshTokens with token equal to the given token (removes every
matching element of the array). -/
def pullToken (s : Store) (uid : Nat) (tok : SignedToken) : Store :=
  findByIdAndUpdate s uid (fun u =>
    { u with refreshTokens := (u.refreshTokens.filter
        (fun rc => ! decide (rc.token = tok))) })

/-- The push update used by login and rotation: appends one
refresh-credential record to the array. -/
def pushCredential (s : Store) (uid : Nat) (rc : RefreshCredential) : Store :=
  findByIdAndUpdate s uid (fun u =>
    { u with refreshTokens := u.refreshTokens ++ [rc] })

/-- JavaScript parseInt(s, 10) on the strings this code feeds it
(digit-prefixed): the leading digit run read as a decimal number, none when
there is no leading digit (parseInt would give NaN). -/
def parseIntJS (cs : List Char) : Option Nat :=
  match cs.takeWhile (fun c => c.isDigit) with
  | [] => none
  | ds => some (ds.foldl (fun acc c => acc * 10 + (c.toNat - 48)) 0)

/-- AuthService.calculateExpirationDate: unit is the last character of the
TTL string (slice(-1)), value is parseInt of the rest (slice(0,-1)); units
d, h, m are converted, anything else falls back to now plus 7 days. none
models the Invalid Date produced when parseInt gives NaN in a converted
branch. -/
def calculateExpirationDate (nowMs : Nat) (expiresIn : String) : Option Nat :=
  let value := parseIntJS expiresIn.toList.dropLast
  match expiresIn.toList.getLast? with
  | some 'd' => value.map (fun v => nowMs + v * 24 * 60 * 60 * 1000)
  | some 'h' => value.map (fun v => nowMs + v * 60 * 60 * 1000)
  | some 'm' => value.map (fun v => nowMs + v * 60 * 1000)
  | _ => some (nowMs + 7 * 24 * 60 * 60 * 1000)

/-- Modelled from the spec: the token codec interprets the configured TTL
string (expiresIn passed to the signing call, resolved by the jsonwebtoken
library which is not part of src) as a duration; the spec gives 15 minutes
and 7 days as examples. Standard units s, m, h, d, w; other strings fail
signing. -/
def jwtTtlMillis (ttl : String) : Option Nat :=
  let value := parseIntJS ttl.toList.dropLast
  match ttl.toList.getLast? with
  | some 's' => value.map (fun v => v * 1000)
  | some 'm' => value.map (fun v => v * 60 * 1000)
  | some 'h' => value.map (fun v => v * 60 * 60 * 1000)
  | some 'd' => value.map (fun v => v * 24 * 60 * 60 * 1000)
  | some 'w' => value.map (fun v => v * 7 * 24 * 60 * 60 * 1000)
  | _ => none

/-- JavaScript x or-else dflt on an optional string field: the default is
taken when the field is absent or the empty string (falsy). -/
def jsStringOr (x : Option String) (dflt : String) : String :=
  match x with
  | some v => if v = "" then dflt else v
  | none => dflt

/-- A user object with password and refreshTokens projected away, as
returned by validateUser and by the access strategy's select. -/
structure PublicUser where
  id : Nat
  email : String
  name : String
  role : UserRole
  bio : String
  lastLogin : Option Nat
  deriving DecidableEq

/-- The select -password -refreshTokens projection. -/
def publicOf (u : UserDoc) : PublicUser :=
  { id := u.id, email := u.email, name := u.name, role := u.role,
    bio := u.bio, lastLogin := u.lastLogin }

/-- AuthService.login: sign an access and a refresh token from the user's
claims, push a refresh-credential record expiring at
calculateExpirationDate(JWT_REFRESH_EXPIRATION) with the supplied device
label (default Unknown Device), set lastLogin, and return both tokens.
none models the signing failure on an unparseable TTL configuration. -/
def login (s : Store) (user : PublicUser) (deviceInfo : Option String)
    (accessExp refreshExp : String) (now : Nat) :
    Option (Store × SignedToken × SignedToken) :=
  let payload : JwtPayload :=
    { sub := user.id, email := user.email, role := user.role }
  (jwtTtlMillis accessExp).bind (fun aT =>
    (jwtTtlMillis refreshExp).bind (fun rT =>
      (calculateExpirationDate now refreshExp).map (fun expDate =>
      let accessToken := sign payload TokenClass.access now aT
      let refreshTok := sign payload TokenClass.refresh now rT
      let s1 := findByIdAndUpdate s user.id (fun ud =>
        { ud with
          refreshTokens := ud.refreshTokens ++
            [{ token := refreshTok, createdAt := now, expiresAt := expDate,
               deviceInfo := jsStringOr deviceInfo ("Unknown Device") }],
          lastLogin := some now })
      (s1, accessToken, refreshTok))))

/-- The user object the refresh service reads fields from (the controller
passes it the object produced by the refresh guard); refreshTokens is
optional because property access on an object lacking the field yields
undefined in JavaScript. -/
structure SvcUser where
  id : Nat
  email : String
  role : UserRole
  refreshTokens : Option (List RefreshCredential)
  deriving DecidableEq

/-- AuthService.refreshTokens: sign a new access and refresh token from the
user's claims, pull the old record (first awaited update), then push the
new record (second awaited update) whose device label is read from
user.refreshTokens at index 0 with fallback Unknown device, and return the
new pair. -/
def refreshTokens (s : Store) (user : SvcUser) (oldRefreshToken : SignedToken)
    (accessExp refreshExp : String) (now : Nat) :
    Option (Store × SignedToken × SignedToken) :=
  let payload : JwtPayload :=
    { sub := user.id, email := user.email, role := user.role }
  (jwtTtlMillis accessExp).bind (fun aT =>
    (jwtTtlMillis refreshExp).bind (fun rT =>
      (calculateExpirationDate now refreshExp).map (fun expDate =>
      let accessToken := sign payload TokenClass.access now aT
      let newRefreshToken := sign payload TokenClass.refresh now rT
      let s1 := pullToken s user.id oldRefreshToken
      let s2 := pushCredential s1 user.id
        { token := newRefreshToken, createdAt := now, expiresAt := expDate,
          deviceInfo := jsStringOr
            ((user.refreshTokens.bind (fun l => l.head?)).map
              (fun rc => rc.deviceInfo)) ("Unknown device") }
      (s2, accessToken, newRefreshToken))))

/-- Result body carrying only a message. -/
structure MessageResult where
  message : String
  deriving DecidableEq

/-- AuthService.logout: pull the matching record, report success. -/
def logout (s : Store) (userId : Nat) (refreshToken : SignedToken) :
    Store × MessageResult :=
  (pullToken s userId refreshToken, { message := "Logged out successfully" })

/-- AuthService.logoutAllDevices: set refreshTokens to the empty array. -/
def logoutAllDevices (s : Store) (userId : Nat) : Store × MessageResult :=
  (findByIdAndUpdate s userId (fun u => { u with refreshTokens := [] }),
   { message := "Logged out from all devices successfully" })

/-- AuthService.cleanExpiredTokens: updateMany over all users pulling the
records with expiresAt strictly below now; the returned body is a fixed
message (the update result is not inspected). -/
def cleanExpiredTokens (s : Store) (now : Nat) : Store × MessageResult :=
  (s.map (fun u =>
     { u with refreshTokens := (u.refreshTokens.filter
         (fun rc => ! decide (rc.expiresAt < now))) }),
   { message := "Expired tokens cleaned successfully" })

/-- Number of records the sweep's pull removes from the whole store at the
given instant. -/
def sweepRemovedCount (s : Store) (now : Nat) : Nat :=
  (s.map (fun u =>
    (u.refreshTokens.filter (fun rc => decide (rc.expiresAt < now))).length)).sum

/-- AuthController.cleanExpiredTokensManually (POST
/auth/admin/clean-expired-tokens): returns the service result as the
response body. -/
def cleanExpiredTokensManually (s : Store) (now : Nat) : Store × MessageResult :=
  cleanExpiredTokens s now

/-- Decidable equality of guard results, for checking concrete runs. -/
instance {ε α : Type} [DecidableEq ε] [DecidableEq α] :
    DecidableEq (Except ε α) := fun x y =>
  match x, y with
  | Except.error a, Except.error b =>
      if h : a = b then isTrue (by rw [h])
      else isFalse (fun hc => h (by injection hc))
  | Except.error _, Except.ok _ => isFalse (fun hc => Except.noConfusion hc)
  | Except.ok _, Except.error _ => isFalse (fun hc => Except.noConfusion hc)
  | Except.ok a, Except.ok b =>
      if h : a = b then isTrue (by rw [h])
      else isFalse (fun hc => h (by injection hc))

/-- The distinct failure points of the refresh-guard path: the passport
verification step (bad signature, malformed, embedded-expired), and the
three UnauthorizedException sites of JwtRefreshStrategy.validate. -/
inductive RefreshAuthError where
  | jwtUnauthorized
  | refreshTokenNotFound
  | invalidOrUnknown
  | dbExpired
  deriving DecidableEq

/-- Every UnauthorizedException maps to HTTP status 401. -/
def RefreshAuthError.httpStatus : RefreshAuthError → Nat :=
  fun _ => 401

/-- The message field of the 401 response body NestJS builds from each
UnauthorizedException (the default guard failure carries Unauthorized). -/
def RefreshAuthError.httpMessage : RefreshAuthError → String
  | RefreshAuthError.jwtUnauthorized => "Unauthorized"
  | RefreshAuthError.refreshTokenNotFound => "Refresh token not found"
  | RefreshAuthError.invalidOrUnknown => "Invalid refresh token or user not found"
  | RefreshAuthError.dbExpired => "Refresh token has expired"

/-- The object JwtRefreshStrategy.validate returns: id, email, name, role,
bio and the raw refresh token; the refreshTokens array is projected away
by select -password -refreshTokens. -/
structure ValidatedRefreshUser where
  id : Nat
  email : String
  name : String
  role : UserRole
  bio : String
  refreshToken : SignedToken
  deriving DecidableEq

/-- JwtRefreshStrategy.validate, run on the payload the codec verified:
findOne on id and refreshTokens.token, then a second findOne requiring an
element with that token and expiresAt at or after now; returns the
sanitised user with the raw token attached. -/
def jwtRefreshStrategyValidate (s : Store) (payload : JwtPayload)
    (refreshToken : SignedToken) (now : Nat) :
    Except RefreshAuthError ValidatedRefreshUser :=
  match s.find? (fun u => decide (u.id = payload.sub) &&
      u.refreshTokens.any (fun rc => decide (rc.token = refreshToken))) with
  | none => Except.error RefreshAuthError.invalidOrUnknown
  | some user =>
    match s.find? (fun u => decide (u.id = payload.sub) &&
        u.refreshTokens.any (fun rc =>
          decide (rc.token = refreshToken) && decide (now ≤ rc.expiresAt))) with
    | none => Except.error RefreshAuthError.dbExpired
    | some _ =>
      Except.ok { id := user.id, email := user.email, name := user.name,
                  role := user.role, bio := user.bio,
                  refreshToken := refreshToken }

/-- The refresh guard pipeline (JwtRefreshGuard): passport verifies the
extracted token against the refresh secret with ignoreExpiration false,
then calls JwtRefreshStrategy.validate with the decoded payload and the
raw token. -/
def jwtRefreshGuard (s : Store) (tok : SignedToken) (now : Nat) :
    Except RefreshAuthError ValidatedRefreshUser :=
  match verifyToken tok TokenClass.refresh now with
  | Except.error _ => Except.error RefreshAuthError.jwtUnauthorized
  | Except.ok payload => jwtRefreshStrategyValidate s payload tok now

/-- Failure points of the access-guard path: passport verification, and
the UnauthorizedException of JwtStrategy.validate when the user document
no longer exists. -/
inductive AccessAuthError where
  | jwtUnauthorized
  | userGone
  deriving DecidableEq

/-- JwtStrategy.validate: reload the user by the id claim with
select -password -refreshTokens; reject when the user no longer exists;
the request identity is the fresh database state. -/
def jwtStrategyValidate (s : Store) (payload : JwtPayload) :
    Except AccessAuthError PublicUser :=
  match findUser s payload.sub with
  | none => Except.error AccessAuthError.userGone
  | some u => Except.ok (publicOf u)

/-- The access guard pipeline (JwtAuthGuard): passport verifies the token
against the access secret, then JwtStrategy.validate reloads the user. -/
def jwtAuthGuard (s : Store) (tok : SignedToken) (now : Nat) :
    Except AccessAuthError PublicUser :=
  match verifyToken tok TokenClass.access now with
  | Except.error _ => Except.error AccessAuthError.jwtUnauthorized
  | Except.ok payload => jwtStrategyValidate s payload

/-- The controller hands the guard's user object to
AuthService.refreshTokens; that object has no refreshTokens property, so
the service's read of user.refreshTokens yields undefined. -/
def svcUserOfValidated (vu : ValidatedRefreshUser) : SvcUser :=
  { id := vu.id, email := vu.email, role := vu.role, refreshTokens := none }

/-- POST /auth/refresh: the refresh guard, then the rotation service on
the guard's user object and raw token. -/
def refreshEndpoint (s : Store) (tok : SignedToken)
    (accessExp refreshExp : String) (now : Nat) :
    Except RefreshAuthError (Option (Store × SignedToken × SignedToken)) :=
  match jwtRefreshGuard s tok now with
  | Except.error e => Except.error e
  | Except.ok vu =>
      Except.ok (refreshTokens s (svcUserOfValidated vu) vu.refreshToken
        accessExp refreshExp now)

/-! Concrete fixtures used by witnesses and counterexamples. -/

/-- Claim set of the fixture user. -/
def demoPayload : JwtPayload :=
  { sub := 1, email := "ada@example.com", role := UserRole.user }

/-- A refresh token issued to the fixture user at time 0 with a 7-day
embedded expiry. -/
def demoOldTok : SignedToken :=
  { payload := demoPayload, iat := 0, exp := 604800000,
    cls := TokenClass.refresh }

/-- The stored credential record for demoOldTok, labelled laptop. -/
def demoCred : RefreshCredential :=
  { token := demoOldTok, createdAt := 0, expiresAt := 604800000,
    deviceInfo := "laptop" }

/-- Fixture user holding exactly the laptop credential. -/
def demoUser : UserDoc :=
  { id := 1, email := "ada@example.com", name := "Ada",
    role := UserRole.user, bio := "hi", password := "hash",
    lastLogin := none, refreshTokens := [demoCred] }

/-- Store with the one fixture user. -/
def demoStore : Store := [demoUser]

/-- What the refresh guard returns for demoOldTok against demoStore. -/
def demoVu : ValidatedRefreshUser :=
  { id := 1, email := "ada@example.com", name := "Ada",
    role := UserRole.user, bio := "hi", refreshToken := demoOldTok }

/-- The service-side view of demoVu (no refreshTokens property). -/
def demoSvcUser : SvcUser := svcUserOfValidated demoVu

/-- Fixture user with an empty credential set. -/
def demoUser0 : UserDoc :=
  { id := 1, email := "ada@example.com", name := "Ada",
    role := UserRole.user, bio := "hi", password := "hash",
    lastLogin := none, refreshTokens := [] }

/-- Store with the credential-free fixture user. -/
def demoStore0 : Store := [demoUser0]

/-- The validated-login view of the fixture user. -/
def demoPub : PublicUser := publicOf demoUser0

/-- Result of rotating demoOldTok against demoStore at time 10 with the
15-minute and 7-day TTL configuration. -/
def demoRotatedRes : Store × SignedToken × SignedToken :=
  (refreshTokens demoStore demoSvcUser demoOldTok ("15m") ("7d") 10).getD
    (demoStore, demoOldTok, demoOldTok)

/-- The access token the rotation at time 10 signs. -/
def c3ATok : SignedToken :=
  { payload := demoPayload, iat := 10, exp := 900010,
    cls := TokenClass.access }

/-- The refresh token the rotation at time 10 signs. -/
def c3NewTok : SignedToken :=
  { payload := demoPayload, iat := 10, exp := 604800010,
    cls := TokenClass.refresh }

/-- The record the rotation at time 10 pushes. -/
def c3NewRec : RefreshCredential :=
  { token := c3NewTok, createdAt := 10, expiresAt := 604800010,
    deviceInfo := "Unknown device" }

/-- A signed refresh token of the fixture user whose stored record has
already lapsed in the database. -/
def demoExpTok : SignedToken :=
  { payload := demoPayload, iat := 0, exp := 1000,
    cls := TokenClass.refresh }

/-- Stored record for demoExpTok, lapsed at time 5. -/
def demoExpiredCred : RefreshCredential :=
  { token := demoExpTok, createdAt := 0, expiresAt := 5,
    deviceInfo := "phone" }

/-- A signature-valid refresh token of the fixture user that is absent
from the store. -/
def demoMissingTok : SignedToken :=
  { payload := demoPayload, iat := 3, exp := 1000,
    cls := TokenClass.refresh }

/-- Fixture user holding only the lapsed record. -/
def demoUserExp : UserDoc :=
  { id := 1, email := "ada@example.com", name := "Ada",
    role := UserRole.user, bio := "hi", password := "hash",
    lastLogin := none, refreshTokens := [demoExpiredCred] }

/-- Store with the lapsed-record fixture user. -/
def demoStoreExp : Store := [demoUserExp]


/-- An access token of the fixture user, 15-minute expiry from time 0. -/
def demoAccessTok : SignedToken :=
  { payload := demoPayload, iat := 0, exp := 900000,
    cls := TokenClass.access }

/-- The fixture user after an administrator promoted the role in the
database (the signed tokens still claim the old role). -/
def demoAdminUser : UserDoc :=
  { id := 1, email := "ada@example.com", name := "Ada",
    role := UserRole.admin, bio := "hi", password := "hash",
    lastLogin := none, refreshTokens := [demoCred] }

/-- Store with the promoted fixture user. -/
def demoStoreAdmin : Store := [demoAdminUser]


/-- The JWT payload object both login and refreshTokens build from the
user object they are handed. -/
def jwtPayloadOf (pub : PublicUser) : JwtPayload :=
  { sub := pub.id, email := pub.email, role := pub.role }

/-! Helper lemmas. -/

/-- A structure-only update through findByIdAndUpdate relocates findUser
through the per-document transform, provided the transform keeps ids. -/
theorem findUser_findByIdAndUpdate (s : Store) (uid x : Nat)
    (f : UserDoc → UserDoc) (hf : ∀ u, (f u).id = u.id) :
    findUser (findByIdAndUpdate s uid f) x =
      (findUser s x).map (fun u => if u.id = uid then f u else u) := by
  induction s with
  | nil => rfl
  | cons u t ih =>
      have hid : (if u.id = uid then f u else u).id = u.id := by
        by_cases h : u.id = uid <;> simp [h, hf u]
      simp only [findUser, findByIdAndUpdate, List.map_cons] at ih ⊢
      rw [List.find?_cons, List.find?_cons, hid]
      by_cases hx : u.id = x
      · simp [hx]
      · rw [decide_eq_false hx]
        exact ih

/-- C1: a refresh token consumed by a successful refresh cannot be used
again: the rotation pulls the old record and pushes the new one, so as
long as the new token differs from the old string, a later guard check of
the old token finds no matching record and fails with the
revoked-or-unknown unauthorized outcome. -/
theorem refresh_rotation_invalidates_old_token
    (s : Store) (u : SvcUser) (oldTok : SignedToken)
    (accessExp refreshExp : String) (now now2 : Nat)
    (res : Store × SignedToken × SignedToken)
    (hres : refreshTokens s u oldTok accessExp refreshExp now = some res)
    (hne : res.2.2 ≠ oldTok)
    (hsub : oldTok.payload.sub = u.id)
    (hcls : oldTok.cls = TokenClass.refresh)
    (hexp : now2 ≤ oldTok.exp) :
    jwtRefreshGuard res.1 oldTok now2 =
      Except.error RefreshAuthError.invalidOrUnknown := by
  simp only [refreshTokens, Option.bind_eq_some, Option.map_eq_some'] at hres
  obtain ⟨aT, haT, rT, hrT, expDate, hdate, hres⟩ := hres
  subst hres
  simp only at hne ⊢
  have hv : verifyToken oldTok TokenClass.refresh now2 =
      Except.ok oldTok.payload := by
    unfold verifyToken
    rw [if_neg (by simp [hcls]), if_neg (Nat.not_lt.mpr hexp)]
  have hnone :
      (pushCredential (pullToken s u.id oldTok) u.id
        { token := sign { sub := u.id, email := u.email, role := u.role }
            TokenClass.refresh now rT,
          createdAt := now, expiresAt := expDate,
          deviceInfo := jsStringOr
            ((u.refreshTokens.bind (fun l => l.head?)).map
              (fun rc => rc.deviceInfo)) ("Unknown device") }).find?
        (fun w => decide (w.id = oldTok.payload.sub) &&
          w.refreshTokens.any (fun rc => decide (rc.token = oldTok))) =
        none := by
    apply List.find?_eq_none.mpr
    intro x hx
    simp only [pushCredential, pullToken, findByIdAndUpdate, List.map_map,
      List.mem_map, Function.comp] at hx
    obtain ⟨x0, _, rfl⟩ := hx
    by_cases h0 : x0.id = u.id
    · simp only [h0, if_true, hsub]
      simp only [Bool.and_eq_true, decide_eq_true_eq, List.any_eq_true,
        List.mem_append, List.mem_filter, Bool.not_eq_true',
        decide_eq_false_iff_not, List.mem_singleton, not_and, not_exists]
      intro _ rc hrc
      rcases hrc with hmem | hsingle
      · exact hmem.2
      · subst hsingle
        exact hne
    · simp only [h0, if_false, hsub]
      simp [h0]
  have hguard : ∀ st : Store, jwtRefreshGuard st oldTok now2 =
      jwtRefreshStrategyValidate st oldTok.payload oldTok now2 := by
    intro st
    unfold jwtRefreshGuard
    rw [hv]
  rw [hguard]
  unfold jwtRefreshStrategyValidate
  rw [hnone]

/-- Witness for C1 at the fixture rotation: the rotated-out token is
rejected as revoked-or-unknown at time 20. -/
theorem refresh_rotation_invalidates_old_token_witness :
    jwtRefreshGuard demoRotatedRes.1 demoOldTok 20 =
      Except.error RefreshAuthError.invalidOrUnknown :=
  refresh_rotation_invalidates_old_token demoStore demoSvcUser demoOldTok
    ("15m") ("7d") 10 20 demoRotatedRes rfl (by decide) rfl rfl (by decide)

/-- C2 (violation run): two refresh calls race on the same token; both
guard checks run against the pre-rotation store and succeed, then both
rotations complete, because the rotation never inspects the pull result.
The final user document holds two fresh records and the old token is gone,
yet neither caller observed a revoked-or-unknown failure. -/
theorem concurrent_refresh_both_rotations_succeed :
    jwtRefreshGuard demoStore demoOldTok 10 = Except.ok demoVu ∧
    ((refreshTokens demoStore demoSvcUser demoOldTok ("15m") ("7d") 10).bind
      (fun rA =>
        (refreshTokens rA.1 demoSvcUser demoOldTok ("15m") ("7d") 11).map
          (fun rB =>
            ((findUser rB.1 1).map (fun w => w.refreshTokens.length),
             (findUser rB.1 1).map (fun w =>
               w.refreshTokens.any (fun rc => decide (rc.token = demoOldTok)))))))
      = some (some 2, some false) := ⟨rfl, rfl⟩

/-- C3 (violation run): the rotation is the pull composed with a separate
push; after the pull alone has committed (the state in which a failing
push abandons the user), the fixture user's credential list is already
empty: neither the old nor the new record is live. -/
theorem rotation_pull_commits_before_push :
    refreshTokens demoStore demoSvcUser demoOldTok ("15m") ("7d") 10 =
      some (pushCredential (pullToken demoStore 1 demoOldTok) 1 c3NewRec,
        c3ATok, c3NewTok) ∧
    (findUser (pullToken demoStore 1 demoOldTok) 1).map
      (fun w => w.refreshTokens) = some ([]) := ⟨rfl, rfl⟩

/-- C4 (violation run): login with the laptop device label, then refresh;
the guard's select strips refreshTokens, so the rotation's device read is
undefined and the new record is stored with the Unknown device fallback
instead of the carried-forward laptop label. -/
theorem refresh_loses_login_device_label :
    ((login demoStore0 demoPub (some ("laptop")) ("15m") ("7d") 0).bind
      (fun r1 =>
        (jwtRefreshGuard r1.1 r1.2.2 5).toOption.bind (fun vu =>
          (refreshTokens r1.1 (svcUserOfValidated vu) vu.refreshToken
            ("15m") ("7d") 5).map (fun r2 =>
              ((findUser r1.1 1).map (fun w =>
                 w.refreshTokens.map (fun rc => rc.deviceInfo)),
               (findUser r2.1 1).map (fun w =>
                 w.refreshTokens.map (fun rc => rc.deviceInfo)))))))
      = some (some (["laptop"]), some (["Unknown device"])) := by rfl

/-- C6 (counterexample): two runs of the admin sweep endpoint that remove
different numbers of records return identical bodies, so the returned
value carries no removal count. -/
theorem admin_sweep_reports_no_count :
    sweepRemovedCount demoStoreExp 10 = 1 ∧
    sweepRemovedCount demoStore0 10 = 0 ∧
    (cleanExpiredTokensManually demoStoreExp 10).2 =
      (cleanExpiredTokensManually demoStore0 10).2 := ⟨rfl, rfl, rfl⟩

/-- C6 (amended): the admin sweep endpoint always returns the fixed
success message, independent of the store and of how many records the
sweep removed. -/
theorem admin_sweep_returns_fixed_message (s s2 : Store) (now now2 : Nat) :
    (cleanExpiredTokensManually s now).2.message =
      "Expired tokens cleaned successfully" ∧
    (cleanExpiredTokensManually s now).2 =
      (cleanExpiredTokensManually s2 now2).2 := ⟨rfl, rfl⟩

/-- C8 (counterexample): a revoked/unknown token and a database-expired
token both fail the refresh guard, but the 401 bodies carry different
messages, so the two failures are externally distinguishable. -/
theorem refresh_guard_failures_distinguishable :
    jwtRefreshGuard demoStoreExp demoMissingTok 10 =
      Except.error RefreshAuthError.invalidOrUnknown ∧
    jwtRefreshGuard demoStoreExp demoExpTok 10 =
      Except.error RefreshAuthError.dbExpired ∧
    RefreshAuthError.invalidOrUnknown.httpMessage ≠
      RefreshAuthError.dbExpired.httpMessage := ⟨rfl, rfl, by decide⟩

/-- C9 (counterexample): with the refresh TTL configured as 10s the token
itself expires 10 seconds after issue, but the stored record's expiresAt
is the 7-day fallback, not now plus the configured TTL. -/
theorem login_stores_default_expiry_for_seconds_ttl :
    ((login demoStore0 demoPub none ("15m") ("10s") 0).map (fun r =>
      ((findUser r.1 1).map (fun w =>
         w.refreshTokens.map (fun rc => rc.expiresAt)), r.2.2.exp)))
      = some (some ([604800000]), 10000) ∧ (604800000 : Nat) ≠ 10000 :=
  ⟨rfl, by decide⟩

/-- C5: the sweep removes, across all users, exactly the records with
expiresAt strictly before now, keeps every document's other fields and
every unexpired record, and is idempotent: an immediate second sweep
changes nothing and removes zero records. -/
theorem sweep_removes_exactly_expired_and_is_idempotent
    (s : Store) (now : Nat) :
    ((cleanExpiredTokens s now).1.length = s.length) ∧
    (∀ i, ∀ hi : i < s.length, ∀ hi2 : i < (cleanExpiredTokens s now).1.length,
      ((cleanExpiredTokens s now).1[i].id = s[i].id ∧
       (cleanExpiredTokens s now).1[i].email = s[i].email ∧
       (cleanExpiredTokens s now).1[i].name = s[i].name ∧
       (cleanExpiredTokens s now).1[i].role = s[i].role ∧
       (cleanExpiredTokens s now).1[i].bio = s[i].bio ∧
       (cleanExpiredTokens s now).1[i].lastLogin = s[i].lastLogin) ∧
      (∀ rc, rc ∈ (cleanExpiredTokens s now).1[i].refreshTokens ↔
        (rc ∈ s[i].refreshTokens ∧ ¬ rc.expiresAt < now))) ∧
    ((cleanExpiredTokens (cleanExpiredTokens s now).1 now).1 =
      (cleanExpiredTokens s now).1) ∧
    (sweepRemovedCount (cleanExpiredTokens s now).1 now = 0) := by
  refine ⟨by simp [cleanExpiredTokens], ?_, ?_, ?_⟩
  · intro i hi hi2
    have hg : (cleanExpiredTokens s now).1[i] =
        { s[i] with refreshTokens := (s[i].refreshTokens.filter
            (fun rc => ! decide (rc.expiresAt < now))) } := by
      simp [cleanExpiredTokens, List.getElem_map]
    rw [hg]
    refine ⟨⟨rfl, rfl, rfl, rfl, rfl, rfl⟩, ?_⟩
    intro rc
    simp [List.mem_filter]
  · induction s with
    | nil => rfl
    | cons u t ih =>
        simp only [cleanExpiredTokens, List.map_cons, List.cons.injEq] at ih ⊢
        refine ⟨?_, ih⟩
        simp [List.filter_filter]
  · simp only [sweepRemovedCount, cleanExpiredTokens, List.map_map]
    apply List.sum_eq_zero
    intro x hx
    simp only [List.mem_map, Function.comp] at hx
    obtain ⟨u, _, rfl⟩ := hx
    simp [List.filter_filter]

/-- Witness for C5 at the fixture store with one lapsed record. -/
theorem sweep_removes_exactly_expired_and_is_idempotent_witness :
    (cleanExpiredTokens demoStoreExp 10).1.length = demoStoreExp.length ∧
    (cleanExpiredTokens (cleanExpiredTokens demoStoreExp 10).1 10).1 =
      (cleanExpiredTokens demoStoreExp 10).1 ∧
    sweepRemovedCount (cleanExpiredTokens demoStoreExp 10).1 10 = 0 :=
  have h := sweep_removes_exactly_expired_and_is_idempotent demoStoreExp 10
  ⟨h.1, h.2.2.1, h.2.2.2⟩

/-- Access-guard behaviour is untouched by any per-user update that only
rewrites the refreshTokens array: the strategy's reload drops that field. -/
theorem jwtAuthGuard_store_invariant (s : Store) (uid : Nat)
    (f : UserDoc → UserDoc) (hf : ∀ u, (f u).id = u.id)
    (hpub : ∀ u, publicOf (f u) = publicOf u)
    (tok : SignedToken) (now : Nat) :
    jwtAuthGuard (findByIdAndUpdate s uid f) tok now =
      jwtAuthGuard s tok now := by
  unfold jwtAuthGuard
  cases hv : verifyToken tok TokenClass.access now with
  | error e => rfl
  | ok p =>
      show jwtStrategyValidate (findByIdAndUpdate s uid f) p =
        jwtStrategyValidate s p
      unfold jwtStrategyValidate
      rw [findUser_findByIdAndUpdate s uid p.sub f hf]
      cases findUser s p.sub with
      | none => rfl
      | some u =>
          simp only [Option.map_some]
          by_cases h : u.id = uid
          · simp [h, hpub u]
          · simp [h]

/-- C7: access-guard validation never reads the credential store: clearing
the whole credential set (logout-all) or one record (logout) leaves every
access-guard outcome unchanged, and an access token is only rejected by
the codec once its own embedded expiry has passed. -/
theorem access_guard_ignores_credential_store
    (s : Store) (uid : Nat) (rt tok : SignedToken) (now : Nat) :
    (jwtAuthGuard (logoutAllDevices s uid).1 tok now =
      jwtAuthGuard s tok now) ∧
    (jwtAuthGuard (logout s uid rt).1 tok now = jwtAuthGuard s tok now) ∧
    (tok.exp < now →
      jwtAuthGuard s tok now = Except.error AccessAuthError.jwtUnauthorized) := by
  refine ⟨?_, ?_, ?_⟩
  · exact jwtAuthGuard_store_invariant s uid
      (fun u => { u with refreshTokens := [] })
      (fun u => rfl) (fun u => rfl) tok now
  · exact jwtAuthGuard_store_invariant s uid
      (fun u => { u with refreshTokens := (u.refreshTokens.filter
        (fun rc => ! decide (rc.token = rt))) })
      (fun u => rfl) (fun u => rfl) tok now
  · intro h
    unfold jwtAuthGuard verifyToken
    by_cases hc : tok.cls = TokenClass.access
    · simp [hc, h]
    · simp [hc]

/-- Witness for C7: after logout-all the fixture access token still passes
the guard with the same outcome, and the token is rejected only once its
own expiry has elapsed. -/
theorem access_guard_ignores_credential_store_witness :
    (jwtAuthGuard (logoutAllDevices demoStore 1).1 demoAccessTok 10 =
      jwtAuthGuard demoStore demoAccessTok 10) ∧
    jwtAuthGuard demoStore demoAccessTok 20000000 =
      Except.error AccessAuthError.jwtUnauthorized :=
  have h := access_guard_ignores_credential_store demoStore 1 demoOldTok
    demoAccessTok 10
  have h2 := access_guard_ignores_credential_store demoStore 1 demoOldTok
    demoAccessTok 20000000
  ⟨h.1, h2.2.2 (by decide)⟩

/-- C10: after codec verification the access guard reloads the user from
the database: a deleted user is rejected as unauthorized, a present user
yields the sanitised current database identity, and the outcome depends on
the token only through its subject claim, so a role change in the database
takes effect on the very next use of an existing token. -/
theorem access_identity_reflects_database
    (s : Store) (tok : SignedToken) (now : Nat) (p : JwtPayload) :
    (verifyToken tok TokenClass.access now = Except.ok p →
      jwtAuthGuard s tok now = jwtStrategyValidate s p) ∧
    (findUser s p.sub = none →
      jwtStrategyValidate s p = Except.error AccessAuthError.userGone) ∧
    (∀ u, findUser s p.sub = some u →
      jwtStrategyValidate s p = Except.ok (publicOf u)) ∧
    (∀ q : JwtPayload, q.sub = p.sub →
      jwtStrategyValidate s q = jwtStrategyValidate s p) := by
  refine ⟨?_, ?_, ?_, ?_⟩
  · intro hv
    unfold jwtAuthGuard
    rw [hv]
  · intro h
    unfold jwtStrategyValidate
    rw [h]
  · intro u h
    unfold jwtStrategyValidate
    rw [h]
  · intro q hq
    unfold jwtStrategyValidate
    rw [hq]

/-- Witness for C10: with the database role promoted to admin while the
token still claims the old role, the guard attaches the database identity;
with the user deleted, the guard rejects. -/
theorem access_identity_reflects_database_witness :
    jwtStrategyValidate demoStoreAdmin demoPayload =
      Except.ok (publicOf demoAdminUser) ∧
    jwtStrategyValidate ([]) demoPayload =
      Except.error AccessAuthError.userGone :=
  have h := access_identity_reflects_database demoStoreAdmin demoAccessTok 10
    demoPayload
  have h2 := access_identity_reflects_database ([]) demoAccessTok 10
    demoPayload
  ⟨h.2.2.1 demoAdminUser rfl, h2.2.1 rfl⟩

/-- C8 (amended): every refresh-guard failure maps to HTTP status 401,
and a codec-valid token that is simply absent from the subject's stored
credential set always yields the same revoked-or-unknown error, whatever
the reason for its absence; only the message string varies between
failure classes. -/
theorem refresh_guard_uniform_status
    (s : Store) (tok : SignedToken) (now : Nat) :
    (∀ e, jwtRefreshGuard s tok now = Except.error e → e.httpStatus = 401) ∧
    (∀ p, verifyToken tok TokenClass.refresh now = Except.ok p →
      s.find? (fun w => decide (w.id = p.sub) &&
        w.refreshTokens.any (fun rc => decide (rc.token = tok))) = none →
      jwtRefreshGuard s tok now =
        Except.error RefreshAuthError.invalidOrUnknown) := by
  constructor
  · intro e _
    rfl
  · intro p hv habs
    have hg : jwtRefreshGuard s tok now =
        jwtRefreshStrategyValidate s p tok now := by
      unfold jwtRefreshGuard
      rw [hv]
    rw [hg]
    unfold jwtRefreshStrategyValidate
    rw [habs]

/-- Witness for the amended C8 at a store holding no credentials. -/
theorem refresh_guard_uniform_status_witness :
    RefreshAuthError.invalidOrUnknown.httpStatus = 401 ∧
    jwtRefreshGuard demoStore0 demoMissingTok 10 =
      Except.error RefreshAuthError.invalidOrUnknown :=
  have h := refresh_guard_uniform_status demoStore0 demoMissingTok 10
  ⟨h.1 RefreshAuthError.invalidOrUnknown rfl, h.2 demoPayload rfl rfl⟩

/-- C9 (amended): for a refresh-TTL configuration whose unit is d, h or m
(the units calculateExpirationDate converts) and whose value parses, login
signs an access and a refresh token that both verify immediately, appends
to the user's document a credential record carrying the refresh token with
expiresAt equal to now plus the configured TTL, and sets lastLogin to now. -/
theorem login_issues_verified_tokens_and_stores_expiry
    (s : Store) (pub : PublicUser) (dev : Option String)
    (accessExp refreshExp : String) (now aT v du : Nat)
    (haT : jwtTtlMillis accessExp = some aT)
    (hval : parseIntJS refreshExp.toList.dropLast = some v)
    (hu : (refreshExp.toList.getLast? = some 'd' ∧ du = 24 * 60 * 60 * 1000) ∨
          (refreshExp.toList.getLast? = some 'h' ∧ du = 60 * 60 * 1000) ∨
          (refreshExp.toList.getLast? = some 'm' ∧ du = 60 * 1000))
    (ud : UserDoc) (hfind : findUser s pub.id = some ud) :
    jwtTtlMillis refreshExp = some (v * du) ∧
    calculateExpirationDate now refreshExp = some (now + v * du) ∧
    verifyToken (sign (jwtPayloadOf pub) TokenClass.access now aT)
      TokenClass.access now = Except.ok (jwtPayloadOf pub) ∧
    verifyToken (sign (jwtPayloadOf pub) TokenClass.refresh now (v * du))
      TokenClass.refresh now = Except.ok (jwtPayloadOf pub) ∧
    login s pub dev accessExp refreshExp now = some
      (findByIdAndUpdate s pub.id (fun u0 =>
        { u0 with
          refreshTokens := u0.refreshTokens ++
            [{ token := sign (jwtPayloadOf pub) TokenClass.refresh now
                 (v * du),
               createdAt := now, expiresAt := now + v * du,
               deviceInfo := jsStringOr dev ("Unknown Device") }],
          lastLogin := some now }),
       sign (jwtPayloadOf pub) TokenClass.access now aT,
       sign (jwtPayloadOf pub) TokenClass.refresh now (v * du)) ∧
    (∀ s1 a r, login s pub dev accessExp refreshExp now = some (s1, a, r) →
      findUser s1 pub.id = some
        { ud with
          refreshTokens := ud.refreshTokens ++
            [{ token := r, createdAt := now, expiresAt := now + v * du,
               deviceInfo := jsStringOr dev ("Unknown Device") }],
          lastLogin := some now }) := by
  have hrT : jwtTtlMillis refreshExp = some (v * du) := by
    rcases hu with ⟨hl, hdu⟩ | ⟨hl, hdu⟩ | ⟨hl, hdu⟩ <;>
      (simp only [String.toList] at hl hval;
       simp [jwtTtlMillis, String.toList, hl, hval, hdu];
       ring)
  have hdateEq : calculateExpirationDate now refreshExp =
      some (now + v * du) := by
    rcases hu with ⟨hl, hdu⟩ | ⟨hl, hdu⟩ | ⟨hl, hdu⟩ <;>
      (simp only [String.toList] at hl hval;
       simp [calculateExpirationDate, String.toList, hl, hval, hdu];
       ring)
  have hverify : ∀ (cls : TokenClass) (t : Nat),
      verifyToken (sign (jwtPayloadOf pub) cls now t) cls now =
        Except.ok (jwtPayloadOf pub) := by
    intro cls t
    unfold verifyToken sign
    simp
  have hlog : login s pub dev accessExp refreshExp now = some
      (findByIdAndUpdate s pub.id (fun u0 =>
        { u0 with
          refreshTokens := u0.refreshTokens ++
            [{ token := sign (jwtPayloadOf pub) TokenClass.refresh now
                 (v * du),
               createdAt := now, expiresAt := now + v * du,
               deviceInfo := jsStringOr dev ("Unknown Device") }],
          lastLogin := some now }),
       sign (jwtPayloadOf pub) TokenClass.access now aT,
       sign (jwtPayloadOf pub) TokenClass.refresh now (v * du)) := by
    unfold login
    rw [haT, hrT, hdateEq]
    rfl
  refine ⟨hrT, hdateEq, hverify TokenClass.access aT,
    hverify TokenClass.refresh (v * du), hlog, ?_⟩
  intro s1 a r hlr
  rw [hlog, Option.some_inj] at hlr
  obtain ⟨hs1, ha, hr⟩ :
      findByIdAndUpdate s pub.id (fun u0 =>
        { u0 with
          refreshTokens := u0.refreshTokens ++
            [{ token := sign (jwtPayloadOf pub) TokenClass.refresh now
                 (v * du),
               createdAt := now, expiresAt := now + v * du,
               deviceInfo := jsStringOr dev ("Unknown Device") }],
          lastLogin := some now }) = s1 ∧
      sign (jwtPayloadOf pub) TokenClass.access now aT = a ∧
      sign (jwtPayloadOf pub) TokenClass.refresh now (v * du) = r := by
    simpa [Prod.ext_iff] using hlr
  subst hs1
  subst hr
  have hid : ud.id = pub.id := by
    have hfind2 : List.find? (fun w => decide (w.id = pub.id)) s =
        some ud := hfind
    have h1 := List.find?_some hfind2
    simpa using h1
  rw [findUser_findByIdAndUpdate s pub.id pub.id
    (fun u0 =>
      { u0 with
        refreshTokens := u0.refreshTokens ++
          [{ token := sign (jwtPayloadOf pub) TokenClass.refresh now
               (v * du),
             createdAt := now, expiresAt := now + v * du,
             deviceInfo := jsStringOr dev ("Unknown Device") }],
        lastLogin := some now })
    (fun u => rfl), hfind]
  simp [hid]

/-- Witness for the amended C9 with the 7-day refresh TTL at time 0. -/
theorem login_issues_verified_tokens_and_stores_expiry_witness :
    jwtTtlMillis ("7d") = some (7 * 86400000) ∧
    calculateExpirationDate 0 ("7d") = some (0 + 7 * 86400000) :=
  have h := login_issues_verified_tokens_and_stores_expiry demoStore0 demoPub
    (some ("laptop")) ("15m") ("7d") 0 900000 7 86400000 rfl rfl
    (Or.inl ⟨rfl, by decide⟩) demoUser0 rfl
  ⟨h.1, h.2.1⟩
